import Mathlib

/-!
Shallow embedding of `src/elsapy/elssearch.py` (class `ElsSearch`):
URI construction, the `execute` pagination state machine, the upper-limit
policy and `hasAllResults`.  Python `dict` field accesses are modelled with
`Option` fields (a missing key raises `KeyError`); attributes that are only
assigned by `execute` (`_results`, `_tot_num_res`) are `Option` on the
session record (`AttributeError` when read unset); fallible operations
return `Except PyError`.  The pagination `while` loop is modelled with
explicit fuel.
-/

set_option maxRecDepth 4000

deriving instance DecidableEq for Except

namespace Elsapy

/-- Raw search-result records are opaque to the core; any countable carrier
works, we use `Nat`. -/
abbrev Entry := Nat

/-- One element of the response's `"link"` collection, with its `"@ref"`
relation marker and `"@href"` target. -/
structure LinkRec where
  ref : String
  href : String
deriving DecidableEq

/-- The `"search-results"` payload of a parsed response.  `totalResults`
models the `"opensearch:totalResults"` field after the `int(...)` conversion
(the code converts it immediately; conversion itself is not under test);
`none` in any field models that key being absent from the dict, which makes
the corresponding subscript raise `KeyError`. -/
structure Response where
  totalResults : Option Int
  entry : Option (List Entry)
  link : Option (List LinkRec)
deriving DecidableEq

/-- The Python exceptions the embedded code can raise.  `transportError`
stands for whatever exception `els_client.exec_request` propagates;
`nameError` is the `UnboundLocalError`/`NameError` raised when `next_url`
is read before any assignment. -/
inductive PyError where
  | keyError (field : String)
  | attributeError
  | nameError
  | transportError (code : Nat)
deriving DecidableEq

/-- The external client collaborator: `exec_request` as a pure map from a
request URL to a parsed response or a raised exception. -/
abbrev Client := String → Except PyError Response

/-- The tabular artifact (`pandas.DataFrame` after `recast_df`). -/
structure Table where
  rows : List Entry
deriving DecidableEq

/-- Modelled from the spec: `recast_df` (together with `pd.DataFrame`) lives
in `elsapy.utils`, which is not part of the sources under test; the spec
treats the TableBuilder collaborator as opaque, so we model it as retaining
exactly the sequence of records it was built from. -/
def recast_df (records : List Entry) : Table :=
  ⟨records⟩

/-- Session state of an `ElsSearch` object. -/
structure ElsSearch where
  query : String
  index : String
  cursor_supported : Bool
  uri : String
  results : Option (List Entry)
  tot_num_res : Option Int
  results_df : Table
deriving DecidableEq

/-- `ElsSearch._base_url`. -/
def base_url : String := "https://api.elsevier.com/content/search/"

/-- `ElsSearch._cursored_indexes`. -/
def cursored_indexes : List String := ["scopus"]

/-- CPython keeps a single interned object for every int in `[-5, 256]`.
`hasAllResults` compares `len(self.results)` with `self._tot_num_res` using
`is`; both operands are freshly created objects (`len(...)` and `int(...)`),
so the identity test succeeds exactly when the two values are equal and lie
in the interned range. -/
def pyIs_int (a b : Int) : Bool :=
  a == b && (-5 ≤ a && a ≤ 256)

/-- The UTF-8 encoding of one character, as a list of byte values. -/
def utf8Bytes (c : Char) : List Nat :=
  let v := c.toNat
  if v < 128 then
    [v]
  else if v < 2048 then
    [192 + v / 64, 128 + v % 64]
  else if v < 65536 then
    [224 + v / 4096, 128 + v / 64 % 64, 128 + v % 64]
  else
    [240 + v / 262144, 128 + v / 4096 % 64, 128 + v / 64 % 64, 128 + v % 64]

/-- Percent-encoding of one UTF-8 byte as done by
`urllib.parse.quote_plus`: bytes in `ALWAYS_SAFE` (ASCII letters, digits,
`_`, `.`, `-`, `~`) pass through, a space becomes `+`, anything else becomes
`%` followed by two uppercase hex digits. -/
def quotePlusByte (b : Nat) : String :=
  if (65 ≤ b && b ≤ 90) || (97 ≤ b && b ≤ 122) || (48 ≤ b && b ≤ 57)
      || b == 95 || b == 46 || b == 45 || b == 126 then
    String.singleton (Char.ofNat b)
  else if b == 32 then
    "+"
  else
    "%" ++ String.singleton (Nat.digitChar (b / 16)).toUpper
        ++ String.singleton (Nat.digitChar (b % 16)).toUpper

/-- `urllib.parse.quote_plus`, imported in the source as `url_encode`:
percent-encodes the UTF-8 bytes of the string, mapping spaces to `+`. -/
def url_encode (s : String) : String :=
  ((s.data.flatMap utf8Bytes).map quotePlusByte).foldl (fun a b => a ++ b) ""

/-- `ElsSearch.__init__(query, index)`. -/
def mkElsSearch (query index : String) : ElsSearch :=
  { query := query
    index := index
    cursor_supported := decide (index ∈ cursored_indexes)
    uri := base_url ++ index ++ "?query=" ++ url_encode query
    results := none
    tot_num_res := none
    results_df := ⟨[]⟩ }

/-- The `query` property setter: assigns `_query` only. -/
def setQuery (s : ElsSearch) (query : String) : ElsSearch :=
  { s with query := query }

/-- The `index` property setter: assigns `_index` only. -/
def setIndex (s : ElsSearch) (index : String) : ElsSearch :=
  { s with index := index }

/-- The `num_res` property: `len(self.results)`; raises `AttributeError`
when `execute` has not yet assigned `_results`. -/
def num_res (s : ElsSearch) : Except PyError Nat :=
  match s.results with
  | none => .error .attributeError
  | some rs => .ok rs.length

/-- `ElsSearch._upper_limit_reached`: `False` for cursor-supporting
indexes, else `self.num_res >= 5000`. -/
def upper_limit_reached (s : ElsSearch) : Except PyError Bool :=
  if s.cursor_supported then
    .ok false
  else
    match num_res s with
    | .error e => .error e
    | .ok n => .ok (decide (n ≥ 5000))

/-- `ElsSearch.hasAllResults`: `self.num_res is self.tot_num_res` — note
the identity (`is`) comparison, see `pyIs_int`. -/
def hasAllResults (s : ElsSearch) : Except PyError Bool :=
  match num_res s with
  | .error e => .error e
  | .ok n =>
    match s.tot_num_res with
    | none => .error .attributeError
    | some t => .ok (pyIs_int (n : Int) t)

/-- The effective request URL composed at the start of `execute`:
`self._uri`, then `&cursor=*` when `use_cursor` is truthy, `&view={view}`
when `view` is truthy (a `None` or empty string is falsy), `&count={count}`
when `count` is truthy (nonzero). -/
def buildUrl (s : ElsSearch) (use_cursor : Bool) (view : Option String)
    (count : Int) : String :=
  let url := s.uri
  let url := if use_cursor then url ++ "&cursor=*" else url
  let url := match view with
    | some v => if v = "" then url else url ++ "&view=" ++ v
    | none => url
  let url := if count = 0 then url else url ++ "&count=" ++ toString count
  url

/-- The `for e in link: if e["@ref"] == "next": next_url = e["@href"]`
scan: each matching element overwrites `next_url`, so the last `"next"`
link wins; with no match the previous binding (`none` = still unbound)
survives. -/
def findNextUrl (links : List LinkRec) (next_url : Option String) :
    Option String :=
  links.foldl (fun acc l => if l.ref = "next" then some l.href else acc)
    next_url

/-- Outcome of the pagination `while` loop: normal exit, an escaped
exception, or fuel exhaustion; each carries the session state at that
point (the loop mutates `self._results` in place, so an exception leaves
the pages appended so far on the object). -/
inductive LoopResult where
  | finished (s : ElsSearch)
  | failed (e : PyError) (s : ElsSearch)
  | fuelOut (s : ElsSearch)
deriving DecidableEq

/-- The `while (self.num_res < self.tot_num_res) and not
self._upper_limit_reached():` loop of `execute`, with explicit fuel.
One iteration: scan the current response's `"link"` list for the last
`"next"` entry (raising `KeyError` if the `"link"` key is absent and
`NameError` if `next_url` has never been assigned), fetch it, and append
the new response's `"entry"` list to `self._results`. -/
def execLoop (client : Client) : Nat → ElsSearch → Response →
    Option String → LoopResult
  | 0, s, _, _ => .fuelOut s
  | fuel + 1, s, resp, next_url =>
    match s.results, s.tot_num_res with
    | some rs, some tot =>
      match upper_limit_reached s with
      | .error e => .failed e s
      | .ok ul =>
        if (rs.length : Int) < tot && !ul then
          match resp.link with
          | none => .failed (.keyError "link") s
          | some links =>
            match findNextUrl links next_url with
            | none => .failed .nameError s
            | some u =>
              match client u with
              | .error e => .failed e s
              | .ok resp2 =>
                match resp2.entry with
                | none => .failed (.keyError "entry") s
                | some es =>
                  execLoop client fuel
                    { s with results := some (rs ++ es) } resp2 (some u)
        else
          .finished s
    | _, _ => .failed .attributeError s

/-- Outcome of one `execute` call: normal return, or an escaped exception;
both carry the session state left behind. -/
inductive ExecResult where
  | ok (s : ElsSearch)
  | err (e : PyError) (s : ElsSearch)
  | fuelOut (s : ElsSearch)
deriving DecidableEq

/-- Lift the loop outcome to the outcome of `execute`: on normal loop exit
the line `self.results_df = recast_df(pd.DataFrame(self._results))` still
runs; an escaped exception skips it. -/
def loopToExec : LoopResult → ExecResult
  | .finished s => .ok { s with results_df := recast_df (s.results.getD []) }
  | .failed e s => .err e s
  | .fuelOut s => .fuelOut s

/-- `ElsSearch.execute(els_client, get_all, use_cursor, view, count)`:
compose the URL, fetch it, read `"opensearch:totalResults"` (as `int`)
into `self._tot_num_res` and `"entry"` into `self._results`; when
`get_all` is true run the pagination loop; finally rebuild
`self.results_df` from `self._results` (skipped when an exception
escapes). -/
def execute (client : Client) (s : ElsSearch) (get_all : Bool)
    (use_cursor : Bool) (view : Option String) (count : Int)
    (fuel : Nat) : ExecResult :=
  let url := buildUrl s use_cursor view count
  match client url with
  | .error e => .err e s
  | .ok resp =>
    match resp.totalResults with
    | none => .err (.keyError "opensearch:totalResults") s
    | some tot =>
      let s1 := { s with tot_num_res := some tot }
      match resp.entry with
      | none => .err (.keyError "entry") s1
      | some es =>
        let s2 := { s1 with results := some es }
        if get_all then
          loopToExec (execLoop client fuel s2 resp none)
        else
          .ok { s2 with results_df := recast_df (s2.results.getD []) }

/-- Is the outcome a normal return? -/
def execOk : ExecResult → Bool
  | .ok _ => true
  | _ => false

/-- The session state an `execute` call leaves behind. -/
def execState : ExecResult → ElsSearch
  | .ok s => s
  | .err _ s => s
  | .fuelOut s => s

/-- The length of `results` left behind (0 when still unassigned). -/
def execNumRes (r : ExecResult) : Nat :=
  ((execState r).results.getD []).length

/-- The session state inside a loop outcome. -/
def loopState : LoopResult → ElsSearch
  | .finished s => s
  | .failed _ s => s
  | .fuelOut s => s

/-- The length of `results` inside a loop outcome. -/
def loopNumRes (r : LoopResult) : Nat :=
  ((loopState r).results.getD []).length

/-- A deterministic executor: the first request reports 6000 total results
and hands back 3000 entries with a next link; the next page carries 3000
more.  Every page is well within the provider page limits, yet the
accumulated count ends at 6000. -/
def overDemoClient : Client := fun u =>
  if u = "u2" then
    .ok ⟨some 6000, some (List.replicate 3000 1), some []⟩
  else
    .ok ⟨some 6000, some (List.replicate 3000 0), some [⟨"next", "u2"⟩]⟩

/-- A deterministic executor for a cursor-capable run: 5000 entries on the
first page, 2 more on the second, 5002 total. -/
def cursorDemoClient : Client := fun u =>
  if u = "u2" then
    .ok ⟨some 5002, some [7, 8], some []⟩
  else
    .ok ⟨some 5002, some (List.replicate 5000 0), some [⟨"next", "u2"⟩]⟩

/-- A deterministic executor whose second page (at `"u2"`) carries no
`"next"` link although only 6 of the reported 9 results have been
delivered. -/
def staleLinkClient : Client := fun u =>
  if u = "u2" then
    .ok ⟨some 9, some [4, 5, 6], some []⟩
  else
    .ok ⟨some 9, some [1, 2, 3], some [⟨"next", "u2"⟩]⟩

/-- A deterministic executor whose second page (at `"u2"`) lacks the
`"opensearch:totalResults"` field entirely. -/
def lateNoTotClient : Client := fun u =>
  if u = "u2" then
    .ok ⟨none, some [4, 5, 6], some []⟩
  else
    .ok ⟨some 6, some [1, 2, 3], some [⟨"next", "u2"⟩]⟩

/-- One successful iteration of the pagination loop, symbolically. -/
theorem execLoop_step (client : Client) (fuel : Nat) (s : ElsSearch)
    (resp resp2 : Response) (next_url : Option String) (rs es : List Entry)
    (tot : Int) (links : List LinkRec) (u : String)
    (hres : s.results = some rs) (htot : s.tot_num_res = some tot)
    (hul : upper_limit_reached s = .ok false)
    (hlt : (rs.length : Int) < tot)
    (hlink : resp.link = some links)
    (hnext : findNextUrl links next_url = some u)
    (hcl : client u = .ok resp2)
    (hent : resp2.entry = some es) :
    execLoop client (fuel + 1) s resp next_url =
      execLoop client fuel { s with results := some (rs ++ es) } resp2
        (some u) := by
  simp [execLoop, hres, htot, hul, hlt, hlink, hnext, hcl, hent]

/-- The loop exits normally when the continuation condition is false. -/
theorem execLoop_stop (client : Client) (fuel : Nat) (s : ElsSearch)
    (resp : Response) (next_url : Option String) (rs : List Entry)
    (tot : Int) (ul : Bool)
    (hres : s.results = some rs) (htot : s.tot_num_res = some tot)
    (hul : upper_limit_reached s = .ok ul)
    (hcond : (decide ((rs.length : Int) < tot) && !ul) = false) :
    execLoop client (fuel + 1) s resp next_url = .finished s := by
  simp only [execLoop, hres, htot, hul, hcond]
  simp

/-- A failing page fetch stops the loop at once with the exception and the
state accumulated so far. -/
theorem execLoop_fail (client : Client) (fuel : Nat) (s : ElsSearch)
    (resp : Response) (next_url : Option String) (rs : List Entry)
    (tot : Int) (links : List LinkRec) (u : String) (e : PyError)
    (hres : s.results = some rs) (htot : s.tot_num_res = some tot)
    (hul : upper_limit_reached s = .ok false)
    (hlt : (rs.length : Int) < tot)
    (hlink : resp.link = some links)
    (hnext : findNextUrl links next_url = some u)
    (hcl : client u = .error e) :
    execLoop client (fuel + 1) s resp next_url = .failed e s := by
  simp [execLoop, hres, htot, hul, hlt, hlink, hnext, hcl]

/-- With no `"next"` link seen yet, the loop raises `NameError` on the
unbound `next_url`. -/
theorem execLoop_nameError (client : Client) (fuel : Nat) (s : ElsSearch)
    (resp : Response) (next_url : Option String) (rs : List Entry)
    (tot : Int) (links : List LinkRec)
    (hres : s.results = some rs) (htot : s.tot_num_res = some tot)
    (hul : upper_limit_reached s = .ok false)
    (hlt : (rs.length : Int) < tot)
    (hlink : resp.link = some links)
    (hnext : findNextUrl links next_url = none) :
    execLoop client (fuel + 1) s resp next_url = .failed .nameError s := by
  simp [execLoop, hres, htot, hul, hlt, hlink, hnext]

/-- On a non-cursor session whose pages all carry at most `P` entries, the
accumulated result count stays below `5000 + P` throughout the loop:
a further page is fetched only while fewer than 5000 results are held. -/
theorem execLoop_len_bound (client : Client) (P : Nat)
    (hcl : ∀ u r, client u = .ok r → ∀ es, r.entry = some es →
      es.length ≤ P) :
    ∀ (fuel : Nat) (s : ElsSearch) (resp : Response)
      (next_url : Option String) (rs : List Entry),
      s.cursor_supported = false → s.results = some rs →
      rs.length < 5000 + P →
      loopNumRes (execLoop client fuel s resp next_url) < 5000 + P := by
  intro fuel
  induction fuel with
  | zero =>
    intro s resp next_url rs _ hres hlen
    simpa [execLoop, loopNumRes, loopState, hres] using hlen
  | succ n ih =>
    intro s resp next_url rs hcur hres hlen
    have hul : upper_limit_reached s = .ok (decide (rs.length ≥ 5000)) := by
      simp [upper_limit_reached, num_res, hcur, hres]
    cases htot : s.tot_num_res with
    | none =>
      simp [execLoop, hres, htot, loopNumRes, loopState, hlen]
    | some tot =>
      by_cases hlt : (rs.length : Int) < tot
      · by_cases hceil : rs.length ≥ 5000
        · have hstop := execLoop_stop client n s resp next_url rs tot _
            hres htot hul (by simp [hceil])
          simp [hstop, loopNumRes, loopState, hres, hlen]
        · have hulf : upper_limit_reached s = .ok false := by
            simpa [hceil] using hul
          cases hlink : resp.link with
          | none =>
            have hout : execLoop client (n + 1) s resp next_url =
                .failed (.keyError "link") s := by
              simp [execLoop, hres, htot, hulf, hlt, hlink]
            simp [hout, loopNumRes, loopState, hres, hlen]
          | some links =>
            cases hnext : findNextUrl links next_url with
            | none =>
              have hout := execLoop_nameError client n s resp next_url rs
                tot links hres htot hulf hlt hlink hnext
              simp [hout, loopNumRes, loopState, hres, hlen]
            | some u =>
              cases hreq : client u with
              | error e =>
                have hout := execLoop_fail client n s resp next_url rs tot
                  links u e hres htot hulf hlt hlink hnext hreq
                simp [hout, loopNumRes, loopState, hres, hlen]
              | ok resp2 =>
                cases hent : resp2.entry with
                | none =>
                  have hout : execLoop client (n + 1) s resp next_url =
                      .failed (.keyError "entry") s := by
                    simp [execLoop, hres, htot, hulf, hlt, hlink, hnext,
                      hreq, hent]
                  simp [hout, loopNumRes, loopState, hres, hlen]
                | some es =>
                  rw [execLoop_step client n s resp resp2 next_url rs es tot
                    links u hres htot hulf hlt hlink hnext hreq hent]
                  apply ih
                  · simpa using hcur
                  · rfl
                  · have hes := hcl u resp2 hreq es hent
                    have hlt5 : rs.length < 5000 := Nat.lt_of_not_le hceil
                    simp only [List.length_append]
                    omega
      · have hstop := execLoop_stop client n s resp next_url rs tot _
          hres htot hul (by simp [hlt])
        simp [hstop, loopNumRes, loopState, hres, hlen]

/-- Symbolic unfolding of `execute` with `get_all = True` down to the
pagination loop, after a successful first request. -/
theorem execute_getAll_loop (client : Client) (s : ElsSearch)
    (use_cursor : Bool) (view : Option String) (count : Int) (fuel : Nat)
    (resp : Response) (tot : Int) (es : List Entry)
    (hcl : client (buildUrl s use_cursor view count) = .ok resp)
    (htot : resp.totalResults = some tot)
    (hent : resp.entry = some es) :
    execute client s true use_cursor view count fuel =
      loopToExec (execLoop client fuel
        { s with tot_num_res := some tot, results := some es } resp
        none) := by
  simp [execute, hcl, htot, hent]

/-- Symbolic unfolding of `execute` with `get_all = False`: the first
page becomes the complete `results` and the table is rebuilt from it. -/
theorem execute_single_page (client : Client) (s : ElsSearch)
    (use_cursor : Bool) (view : Option String) (count : Int) (fuel : Nat)
    (resp : Response) (tot : Int) (es : List Entry)
    (hcl : client (buildUrl s use_cursor view count) = .ok resp)
    (htot : resp.totalResults = some tot)
    (hent : resp.entry = some es) :
    execute client s false use_cursor view count fuel =
      .ok { s with tot_num_res := some tot, results := some es,
                   results_df := recast_df es } := by
  simp [execute, hcl, htot, hent]

/-- Lifting the loop outcome to `execute` does not change the accumulated
result count. -/
theorem execNumRes_loopToExec (r : LoopResult) :
    execNumRes (loopToExec r) = loopNumRes r := by
  cases r <;>
    simp [loopToExec, execNumRes, execState, loopNumRes, loopState]

/-- On a fresh non-cursor session whose executor serves pages of at most
`P` entries, a full `execute(get_all=True)` leaves fewer than `5000 + P`
results, whether it succeeds, fails or runs out of fuel. -/
theorem execute_len_bound (client : Client) (s : ElsSearch)
    (use_cursor : Bool) (view : Option String) (count : Int) (fuel : Nat)
    (P : Nat)
    (hcur : s.cursor_supported = false) (hres0 : s.results = none)
    (hcl : ∀ u r, client u = .ok r → ∀ es, r.entry = some es →
      es.length ≤ P) :
    execNumRes (execute client s true use_cursor view count fuel) <
      5000 + P := by
  cases hreq : client (buildUrl s use_cursor view count) with
  | error e =>
    simp [execute, hreq, execNumRes, execState, hres0]
  | ok resp =>
    cases htot : resp.totalResults with
    | none =>
      simp [execute, hreq, htot, execNumRes, execState, hres0]
    | some tot =>
      cases hent : resp.entry with
      | none =>
        simp [execute, hreq, htot, hent, execNumRes, execState, hres0]
      | some es =>
        rw [execute_getAll_loop client s use_cursor view count fuel resp
          tot es hreq htot hent]
        rw [execNumRes_loopToExec]
        refine execLoop_len_bound client P hcl fuel _ resp none es
          (by simpa using hcur) rfl ?_
        have := hcl _ resp hreq es hent
        omega

/-- Sanity anchor for the `quote_plus` model: pure ASCII words pass
through unchanged. -/
theorem url_encode_plain : url_encode "cats" = "cats" := by decide

/-- Sanity anchor for the `quote_plus` model: spaces become `+` and
reserved punctuation is percent-encoded in uppercase hex. -/
theorem url_encode_reserved :
    url_encode "heart attack AND text(liver)" =
      "heart+attack+AND+text%28liver%29" := by decide

/-- Closed form of `_upper_limit_reached` on a session whose results are
assigned. -/
theorem upper_limit_reached_eq (s : ElsSearch) (rs : List Entry)
    (hres : s.results = some rs) :
    upper_limit_reached s =
      .ok (!s.cursor_supported && decide (rs.length ≥ 5000)) := by
  cases hc : s.cursor_supported <;>
    simp [upper_limit_reached, num_res, hc, hres]

/-- A complete symbolic two-page `get_all` run: the first response links
to a second page, after which the continuation condition fails and the
loop exits normally. -/
theorem execute_two_pages (client : Client) (s : ElsSearch)
    (use_cursor : Bool) (view : Option String) (count : Int) (fuel : Nat)
    (resp1 resp2 : Response) (tot : Int) (es1 es2 : List Entry)
    (links1 : List LinkRec) (u : String) (ul2 : Bool)
    (hcl1 : client (buildUrl s use_cursor view count) = .ok resp1)
    (htot1 : resp1.totalResults = some tot)
    (hent1 : resp1.entry = some es1)
    (hlink1 : resp1.link = some links1)
    (hnext1 : findNextUrl links1 none = some u)
    (hcl2 : client u = .ok resp2)
    (hent2 : resp2.entry = some es2)
    (hul1 : upper_limit_reached
      { s with tot_num_res := some tot, results := some es1 } = .ok false)
    (hlt1 : (es1.length : Int) < tot)
    (hul2 : upper_limit_reached
      { s with tot_num_res := some tot, results := some (es1 ++ es2) } =
        .ok ul2)
    (hstop : (decide (((es1 ++ es2).length : Int) < tot) && !ul2) =
      false) :
    execute client s true use_cursor view count (fuel + 2) =
      .ok { s with tot_num_res := some tot
                   results := some (es1 ++ es2)
                   results_df := recast_df (es1 ++ es2) } := by
  rw [execute_getAll_loop client s use_cursor view count (fuel + 2) resp1
    tot es1 hcl1 htot1 hent1]
  have h1 : execLoop client (fuel + 2)
      { s with tot_num_res := some tot, results := some es1 } resp1 none =
      execLoop client (fuel + 1)
        { s with tot_num_res := some tot, results := some (es1 ++ es2) }
        resp2 (some u) :=
    execLoop_step client (fuel + 1) _ resp1 resp2 none es1 es2 tot links1
      u rfl rfl hul1 hlt1 hlink1 hnext1 hcl2 hent2
  have h2 : execLoop client (fuel + 1)
      { s with tot_num_res := some tot, results := some (es1 ++ es2) }
      resp2 (some u) =
      .finished
        { s with tot_num_res := some tot, results := some (es1 ++ es2) } :=
    execLoop_stop client fuel _ resp2 (some u) (es1 ++ es2) tot ul2 rfl
      rfl hul2 hstop
  rw [h1, h2]
  rfl

/-- C4: `_upper_limit_reached` answers `True` exactly when the session's
index is not cursor-capable and `len(results) >= 5000`; on a
cursor-capable session it answers `False` in every state, whatever the
results attribute holds. -/
theorem c4_upper_limit_policy (s : ElsSearch) :
    (s.cursor_supported = true → upper_limit_reached s = .ok false) ∧
    (∀ rs : List Entry, s.results = some rs →
      (upper_limit_reached s = .ok true ↔
        s.cursor_supported = false ∧ rs.length ≥ 5000)) := by
  constructor
  · intro h
    simp [upper_limit_reached, h]
  · intro rs hres
    cases hc : s.cursor_supported <;>
      simp [upper_limit_reached, num_res, hc, hres]

/-- C4 witness: concrete sessions on both sides of the policy. -/
theorem c4_upper_limit_policy_witness :
    upper_limit_reached { mkElsSearch "cats" "scopus" with
      results := some (List.replicate 5000 0) } = .ok false ∧
    upper_limit_reached { mkElsSearch "cats" "inpharma" with
      results := some (List.replicate 5000 0) } = .ok true := by
  constructor
  · exact (c4_upper_limit_policy _).1 (by decide)
  · exact ((c4_upper_limit_policy _).2 (List.replicate 5000 0) rfl).mpr
      ⟨by decide, by rw [List.length_replicate]⟩

/-- C9: the `query` and `index` property setters assign only the backing
attribute; `_uri` and `_cursor_supported` are computed in `__init__` alone,
so both survive any later assignment unchanged. -/
theorem c9_setters_leave_uri (s : ElsSearch) (q i : String) :
    (setQuery s q).uri = s.uri ∧
    (setQuery s q).cursor_supported = s.cursor_supported ∧
    (setIndex s i).uri = s.uri ∧
    (setIndex s i).cursor_supported = s.cursor_supported := by
  simp [setQuery, setIndex]

/-- C2: `hasAllResults` compares `len(results)` to `tot_num_res` with the
identity operator `is`; with 300 results out of a reported 300 — equal
values above CPython's small-int cache — it answers `False` although all
results are retrieved, and on a freshly constructed session it raises
`AttributeError` instead of answering `False`. -/
theorem c2_hasAllResults_is_bug :
    hasAllResults { mkElsSearch "cats" "scopus" with
      results := some (List.replicate 300 0),
      tot_num_res := some 300 } = .ok false ∧
    hasAllResults (mkElsSearch "cats" "scopus") =
      .error .attributeError := by
  constructor
  · decide
  · decide

/-- C6 counterexample: constructing with an empty index succeeds and
yields an ordinary session (no `InvalidArgument`, no validation at all). -/
theorem c6_counterexample_empty_index :
    mkElsSearch "cats" "" =
      { query := "cats", index := "",
        cursor_supported := false,
        uri := "https://api.elsevier.com/content/search/?query=cats",
        results := none, tot_num_res := none,
        results_df := ⟨[]⟩ } := by
  decide

/-- C6 amended: construction never fails — for every query and index
(empty included) it returns a session with the composed URI, no results
yet and an empty table, touching no executor (no I/O). -/
theorem c6_construction_never_fails (q i : String) :
    mkElsSearch q i =
      { query := q, index := i,
        cursor_supported := decide (i ∈ cursored_indexes),
        uri := base_url ++ i ++ "?query=" ++ url_encode q,
        results := none, tot_num_res := none,
        results_df := ⟨[]⟩ } := rfl

/-- C5: `__init__` composes `requestUri` as
`base + index + "?query=" + url_encode(query)` — a pure computation, hence
byte-identical across repeated constructions — and `execute` appends the
optional `&cursor=*`, `&view=...`, `&count=...` suffixes in that fixed
order when supplied. -/
theorem c5_uri_construction (q i v : String) (c : Int)
    (hv : v ≠ "") (hc : c ≠ 0) :
    (mkElsSearch q i).uri = base_url ++ i ++ "?query=" ++ url_encode q ∧
    buildUrl (mkElsSearch q i) true (some v) c =
      base_url ++ i ++ "?query=" ++ url_encode q ++ "&cursor=*" ++
        "&view=" ++ v ++ "&count=" ++ toString c := by
  refine ⟨rfl, ?_⟩
  simp [buildUrl, mkElsSearch, hv, hc]

/-- C5 witness: the URI and fully-suffixed URL of a concrete search. -/
theorem c5_uri_construction_witness :
    (mkElsSearch "heart attack" "scopus").uri =
      "https://api.elsevier.com/content/search/scopus?query=heart+attack" ∧
    buildUrl (mkElsSearch "heart attack" "scopus") true (some "COMPLETE")
        25 =
      "https://api.elsevier.com/content/search/scopus?query=heart+attack&cursor=*&view=COMPLETE&count=25" := by
  have h := c5_uri_construction "heart attack" "scopus" "COMPLETE" 25
    (by decide) (by decide)
  constructor
  · rw [h.1]
    decide
  · rw [h.2]
    decide

/-- C8: with `get_all` false the first response's entries become the
complete `results`, `tot_num_res` is set from that response, and
`results_df` is rebuilt from exactly those results; when that first page
holds all 3 of 3 reported results, `hasAllResults()` answers `True`. -/
theorem c8_single_page_results (client : Client) (s : ElsSearch)
    (use_cursor : Bool) (view : Option String) (count : Int) (fuel : Nat)
    (resp : Response) (tot : Int) (es : List Entry)
    (hcl : client (buildUrl s use_cursor view count) = .ok resp)
    (htot : resp.totalResults = some tot)
    (hent : resp.entry = some es) :
    execute client s false use_cursor view count fuel =
      .ok { s with tot_num_res := some tot, results := some es,
                   results_df := recast_df es } ∧
    (es.length = 3 → tot = 3 →
      hasAllResults (execState
        (execute client s false use_cursor view count fuel)) =
        .ok true) := by
  have hexec := execute_single_page client s use_cursor view count fuel
    resp tot es hcl htot hent
  refine ⟨hexec, ?_⟩
  intro hlen h3
  rw [hexec]
  simp [execState, hasAllResults, num_res, hlen, h3, pyIs_int]

/-- C8 witness: Scenario A — query "cats" on index "scopus", a first
response reporting 3 total results with entries `[10, 20, 30]`. -/
theorem c8_single_page_results_witness :
    execute (fun _ => .ok ⟨some 3, some [10, 20, 30], some []⟩)
      (mkElsSearch "cats" "scopus") false false none 25 0 =
      .ok { mkElsSearch "cats" "scopus" with
              tot_num_res := some 3
              results := some [10, 20, 30]
              results_df := recast_df [10, 20, 30] } ∧
    hasAllResults (execState
      (execute (fun _ => .ok ⟨some 3, some [10, 20, 30], some []⟩)
        (mkElsSearch "cats" "scopus") false false none 25 0)) =
      .ok true := by
  have h := c8_single_page_results
    (fun _ => .ok ⟨some 3, some [10, 20, 30], some []⟩)
    (mkElsSearch "cats" "scopus") false none 25 0
    ⟨some 3, some [10, 20, 30], some []⟩ 3 [10, 20, 30] rfl rfl rfl
  exact ⟨h.1, h.2 rfl rfl⟩

/-- C7: a failing page fetch inside the `get_all` loop aborts the loop
immediately with that exception — no retry — and the session keeps
exactly the results accumulated from the previously successful pages
(the state `s` is returned untouched); lifted to `execute`, the call
ends in that error with the same retained state. -/
theorem c7_loop_fetch_failure (client : Client) (fuel : Nat)
    (s : ElsSearch) (resp : Response) (next_url : Option String)
    (rs : List Entry) (tot : Int) (links : List LinkRec) (u : String)
    (e : PyError)
    (hres : s.results = some rs) (htot : s.tot_num_res = some tot)
    (hul : upper_limit_reached s = .ok false)
    (hlt : (rs.length : Int) < tot)
    (hlink : resp.link = some links)
    (hnext : findNextUrl links next_url = some u)
    (hfail : client u = .error e) :
    execLoop client (fuel + 1) s resp next_url = .failed e s ∧
    loopToExec (execLoop client (fuel + 1) s resp next_url) =
      .err e s := by
  have h := execLoop_fail client fuel s resp next_url rs tot links u e
    hres htot hul hlt hlink hnext hfail
  refine ⟨h, ?_⟩
  rw [h]
  rfl

/-- C7 witness: a session holding one fetched page, whose next-page fetch
raises a transport error. -/
theorem c7_loop_fetch_failure_witness :
    execLoop
      (fun u => if u = "u2" then .error (.transportError 401)
        else .ok ⟨some 9, some [1, 2, 3], some [⟨"next", "u2"⟩]⟩)
      1
      { mkElsSearch "cats" "inpharma" with
          results := some [1, 2, 3]
          tot_num_res := some 9 }
      ⟨some 9, some [1, 2, 3], some [⟨"next", "u2"⟩]⟩ none =
    .failed (.transportError 401)
      { mkElsSearch "cats" "inpharma" with
          results := some [1, 2, 3]
          tot_num_res := some 9 } := by
  exact (c7_loop_fetch_failure
    (fun u => if u = "u2" then .error (.transportError 401)
      else .ok ⟨some 9, some [1, 2, 3], some [⟨"next", "u2"⟩]⟩)
    0
    { mkElsSearch "cats" "inpharma" with
        results := some [1, 2, 3]
        tot_num_res := some 9 }
    ⟨some 9, some [1, 2, 3], some [⟨"next", "u2"⟩]⟩ none
    [1, 2, 3] 9 [⟨"next", "u2"⟩] "u2" (.transportError 401)
    rfl rfl (by decide) (by decide) rfl (by decide) (by decide)).1

/-- C3 counterexample: the second page (fetched at `"u2"`) carries no
`"next"` link while only 6 of 9 results are held and the ceiling is far
away — the continuation condition holds — yet `execute` does not fail:
the stale `next_url` from the first page is silently reused, the same
page is fetched again, and the call returns normally with duplicated
entries. -/
theorem c3_counterexample_stale_link :
    staleLinkClient "u2" = .ok ⟨some 9, some [4, 5, 6], some []⟩ ∧
    execute staleLinkClient (mkElsSearch "cats" "inpharma") true false
        none 25 10 =
      .ok { query := "cats", index := "inpharma",
            cursor_supported := false,
            uri := "https://api.elsevier.com/content/search/inpharma?query=cats",
            results := some [1, 2, 3, 4, 5, 6, 4, 5, 6],
            tot_num_res := some 9,
            results_df := ⟨[1, 2, 3, 4, 5, 6, 4, 5, 6]⟩ } := by
  constructor
  · decide
  · decide

/-- C3 amended: when the continuation condition holds but no response of
this `execute` call has carried a `"next"` link yet, the loop reads the
never-assigned local `next_url` and the call aborts with `NameError`
(not a dedicated `MissingContinuation` error), retaining the pages
fetched so far; if an earlier response did carry a `"next"` link, that
stale link is reused and no failure occurs (see the counterexample). -/
theorem c3_no_next_link_nameError (client : Client) (s : ElsSearch)
    (use_cursor : Bool) (view : Option String) (count : Int) (fuel : Nat)
    (resp : Response) (tot : Int) (es : List Entry) (links : List LinkRec)
    (hcl : client (buildUrl s use_cursor view count) = .ok resp)
    (htot : resp.totalResults = some tot)
    (hent : resp.entry = some es)
    (hlink : resp.link = some links)
    (hnext : findNextUrl links none = none)
    (hlt : (es.length : Int) < tot)
    (hceil : s.cursor_supported = true ∨ es.length < 5000) :
    execute client s true use_cursor view count (fuel + 1) =
      .err .nameError
        { s with tot_num_res := some tot, results := some es } := by
  rw [execute_getAll_loop client s use_cursor view count (fuel + 1) resp
    tot es hcl htot hent]
  have hul : upper_limit_reached
      { s with tot_num_res := some tot, results := some es } =
      .ok false := by
    rcases hceil with hc | hc
    · simp [upper_limit_reached, hc]
    · cases hcs : s.cursor_supported <;>
        simp [upper_limit_reached, num_res, hcs, hc, Nat.not_le.mpr hc]
  rw [execLoop_nameError client fuel _ resp none es tot links rfl rfl hul
    hlt hlink hnext]
  rfl

/-- C3 witness: a single response reporting 5 results, delivering 2 with
no `"next"` link at all. -/
theorem c3_no_next_link_nameError_witness :
    execute (fun _ => .ok ⟨some 5, some [1, 2], some []⟩)
      (mkElsSearch "cats" "inpharma") true false none 25 1 =
      .err .nameError
        { mkElsSearch "cats" "inpharma" with
            tot_num_res := some 5
            results := some [1, 2] } := by
  exact c3_no_next_link_nameError
    (fun _ => .ok ⟨some 5, some [1, 2], some []⟩)
    (mkElsSearch "cats" "inpharma") false none 25 0
    ⟨some 5, some [1, 2], some []⟩ 5 [1, 2] []
    rfl rfl rfl rfl rfl (by decide) (Or.inr (by decide))

/-- C10 counterexample: the second page of this run lacks the
`"opensearch:totalResults"` field entirely, yet `execute` completes
normally — the total-count field is only read off the first response. -/
theorem c10_counterexample_late_missing_total :
    lateNoTotClient "u2" = .ok ⟨none, some [4, 5, 6], some []⟩ ∧
    execute lateNoTotClient (mkElsSearch "cats" "inpharma") true false
        none 25 10 =
      .ok { query := "cats", index := "inpharma",
            cursor_supported := false,
            uri := "https://api.elsevier.com/content/search/inpharma?query=cats",
            results := some [1, 2, 3, 4, 5, 6],
            tot_num_res := some 6,
            results_df := ⟨[1, 2, 3, 4, 5, 6]⟩ } := by
  constructor
  · decide
  · decide

/-- C10 amended: `execute` raises `KeyError` (the spec's
`MalformedResponse`) when the first response lacks the total-count field,
and when any fetched response lacks the entry field; the total-count
field of responses after the first is never inspected (see the
counterexample). -/
theorem c10_missing_field_keyError (client : Client) :
    (∀ (s : ElsSearch) (g uc : Bool) (view : Option String) (count : Int)
        (fuel : Nat) (resp : Response),
      client (buildUrl s uc view count) = .ok resp →
      resp.totalResults = none →
      execute client s g uc view count fuel =
        .err (.keyError "opensearch:totalResults") s) ∧
    (∀ (s : ElsSearch) (g uc : Bool) (view : Option String) (count : Int)
        (fuel : Nat) (resp : Response) (tot : Int),
      client (buildUrl s uc view count) = .ok resp →
      resp.totalResults = some tot →
      resp.entry = none →
      execute client s g uc view count fuel =
        .err (.keyError "entry") { s with tot_num_res := some tot }) ∧
    (∀ (fuel : Nat) (s : ElsSearch) (resp : Response)
        (next_url : Option String) (rs : List Entry) (tot : Int)
        (links : List LinkRec) (u : String) (resp2 : Response),
      s.results = some rs → s.tot_num_res = some tot →
      upper_limit_reached s = .ok false → (rs.length : Int) < tot →
      resp.link = some links → findNextUrl links next_url = some u →
      client u = .ok resp2 → resp2.entry = none →
      execLoop client (fuel + 1) s resp next_url =
        .failed (.keyError "entry") s) := by
  refine ⟨?_, ?_, ?_⟩
  · intro s g uc view count fuel resp hcl htot
    simp [execute, hcl, htot]
  · intro s g uc view count fuel resp tot hcl htot hent
    simp [execute, hcl, htot, hent]
  · intro fuel s resp next_url rs tot links u resp2 hres htot hul hlt
      hlink hnext hreq hent
    simp [execLoop, hres, htot, hul, hlt, hlink, hnext, hreq, hent]

/-- C10 witness: concrete sessions hitting all three `KeyError` sites. -/
theorem c10_missing_field_keyError_witness :
    execute
      (fun u => if u = "a" then .ok ⟨none, some [], some []⟩
        else if u = "b" then .ok ⟨some 5, none, some []⟩
        else .ok ⟨some 5, some [1], some []⟩)
      ⟨"q", "i", false, "a", none, none, ⟨[]⟩⟩ false false none 0 0 =
      .err (.keyError "opensearch:totalResults")
        ⟨"q", "i", false, "a", none, none, ⟨[]⟩⟩ ∧
    execute
      (fun u => if u = "a" then .ok ⟨none, some [], some []⟩
        else if u = "b" then .ok ⟨some 5, none, some []⟩
        else .ok ⟨some 5, some [1], some []⟩)
      ⟨"q", "i", false, "b", none, none, ⟨[]⟩⟩ false false none 0 0 =
      .err (.keyError "entry")
        ⟨"q", "i", false, "b", none, some 5, ⟨[]⟩⟩ ∧
    execLoop
      (fun u => if u = "a" then .ok ⟨none, some [], some []⟩
        else if u = "b" then .ok ⟨some 5, none, some []⟩
        else .ok ⟨some 5, some [1], some []⟩)
      1 ⟨"q", "i", false, "a", some [1], some 5, ⟨[]⟩⟩
      ⟨some 5, some [1], some [⟨"next", "b"⟩]⟩ none =
      .failed (.keyError "entry")
        ⟨"q", "i", false, "a", some [1], some 5, ⟨[]⟩⟩ := by
  refine ⟨?_, ?_, ?_⟩
  · exact (c10_missing_field_keyError _).1 _ false false none 0 0
      ⟨none, some [], some []⟩ (by decide) rfl
  · exact (c10_missing_field_keyError _).2.1 _ false false none 0 0
      ⟨some 5, none, some []⟩ 5 (by decide) rfl rfl
  · exact (c10_missing_field_keyError _).2.2 0 _
      ⟨some 5, some [1], some [⟨"next", "b"⟩]⟩ none [1] 5
      [⟨"next", "b"⟩] "b" ⟨some 5, none, some []⟩
      rfl rfl (by decide) (by decide) rfl (by decide) (by decide) rfl

/-- C1 counterexample: a non-cursor session whose executor reports 6000
total results in pages of 3000 ends `execute(get_all=True)` holding 6000
results — `len(results)` does not stay at or below 5000; the check only
stops further fetches once the count is already at least 5000, so the
last page overshoots the ceiling. -/
theorem c1_counterexample_overshoot :
    (mkElsSearch "cats" "inpharma").cursor_supported = false ∧
    5000 < execNumRes (execute overDemoClient
      (mkElsSearch "cats" "inpharma") true false none 25 5) ∧
    execNumRes (execute overDemoClient
      (mkElsSearch "cats" "inpharma") true false none 25 5) = 6000 := by
  have hne : buildUrl (mkElsSearch "cats" "inpharma") false none 25 ≠
      "u2" := by decide
  have hcl1 : overDemoClient
      (buildUrl (mkElsSearch "cats" "inpharma") false none 25) =
      .ok ⟨some 6000, some (List.replicate 3000 0),
        some [⟨"next", "u2"⟩]⟩ := by
    simp only [overDemoClient]
    rw [if_neg hne]
  have hcl2 : overDemoClient "u2" =
      .ok ⟨some 6000, some (List.replicate 3000 1), some []⟩ := by
    simp only [overDemoClient]
    exact if_pos trivial
  have hul1 : upper_limit_reached
      { mkElsSearch "cats" "inpharma" with
          tot_num_res := some 6000
          results := some (List.replicate 3000 0) } = .ok false := by
    rw [upper_limit_reached_eq _ (List.replicate 3000 0) rfl,
      List.length_replicate]
    decide
  have hul2 : upper_limit_reached
      { mkElsSearch "cats" "inpharma" with
          tot_num_res := some 6000
          results := some (List.replicate 3000 0 ++
            List.replicate 3000 1) } = .ok true := by
    rw [upper_limit_reached_eq _
      (List.replicate 3000 0 ++ List.replicate 3000 1) rfl]
    simp only [List.length_append, List.length_replicate]
    decide
  have hrun := execute_two_pages overDemoClient
    (mkElsSearch "cats" "inpharma") false none 25 3
    ⟨some 6000, some (List.replicate 3000 0), some [⟨"next", "u2"⟩]⟩
    ⟨some 6000, some (List.replicate 3000 1), some []⟩
    6000 (List.replicate 3000 0) (List.replicate 3000 1)
    [⟨"next", "u2"⟩] "u2" true
    hcl1 rfl rfl rfl (by decide) hcl2 rfl hul1
    (by norm_num [List.length_replicate]) hul2
    (by norm_num [List.length_append, List.length_replicate])
  have hlen : execNumRes (execute overDemoClient
      (mkElsSearch "cats" "inpharma") true false none 25 5) = 6000 := by
    rw [hrun]
    simp only [execNumRes, execState, Option.getD_some,
      List.length_append, List.length_replicate]
  refine ⟨by decide, ?_, hlen⟩
  rw [hlen]
  norm_num

/-- C1 amended: for a non-cursor-capable session, `execute(get_all=True)`
fetches a further page only while `len(results) < 5000`, so whenever the
executor's pages carry at most `P` entries the result count stays below
`5000 + P` during and after the call — the final page may overshoot 5000
itself (see the counterexample); for a cursor-capable index there is no
ceiling: a scopus run below retrieves 5002 results. -/
theorem c1_noncursor_bound (client : Client) (q i : String)
    (use_cursor : Bool) (view : Option String) (count : Int) (fuel : Nat)
    (P : Nat)
    (hcur : (mkElsSearch q i).cursor_supported = false)
    (hcl : ∀ u r, client u = .ok r → ∀ es, r.entry = some es →
      es.length ≤ P) :
    execNumRes (execute client (mkElsSearch q i) true use_cursor view
      count fuel) < 5000 + P ∧
    5000 < execNumRes (execute cursorDemoClient
      (mkElsSearch "cats" "scopus") true false none 25 5) := by
  refine ⟨execute_len_bound client (mkElsSearch q i) use_cursor view
    count fuel P hcur rfl hcl, ?_⟩
  have hne : buildUrl (mkElsSearch "cats" "scopus") false none 25 ≠
      "u2" := by decide
  have hcl1 : cursorDemoClient
      (buildUrl (mkElsSearch "cats" "scopus") false none 25) =
      .ok ⟨some 5002, some (List.replicate 5000 0),
        some [⟨"next", "u2"⟩]⟩ := by
    simp only [cursorDemoClient]
    rw [if_neg hne]
  have hcl2 : cursorDemoClient "u2" =
      .ok ⟨some 5002, some [7, 8], some []⟩ := by
    simp only [cursorDemoClient]
    exact if_pos trivial
  have hul1 : upper_limit_reached
      { mkElsSearch "cats" "scopus" with
          tot_num_res := some 5002
          results := some (List.replicate 5000 0) } = .ok false := by
    rw [upper_limit_reached_eq _ (List.replicate 5000 0) rfl]
    decide
  have hul2 : upper_limit_reached
      { mkElsSearch "cats" "scopus" with
          tot_num_res := some 5002
          results := some (List.replicate 5000 0 ++ [7, 8]) } =
      .ok false := by
    rw [upper_limit_reached_eq _ (List.replicate 5000 0 ++ [7, 8]) rfl]
    decide
  have hrun := execute_two_pages cursorDemoClient
    (mkElsSearch "cats" "scopus") false none 25 3
    ⟨some 5002, some (List.replicate 5000 0), some [⟨"next", "u2"⟩]⟩
    ⟨some 5002, some [7, 8], some []⟩
    5002 (List.replicate 5000 0) [7, 8]
    [⟨"next", "u2"⟩] "u2" false
    hcl1 rfl rfl rfl (by decide) hcl2 rfl hul1
    (by norm_num [List.length_replicate]) hul2
    (by norm_num [List.length_append, List.length_replicate])
  rw [hrun]
  simp only [execNumRes, execState, Option.getD_some,
    List.length_append, List.length_replicate]
  norm_num

/-- C1 witness: an always-failing executor trivially satisfies the page
bound; the cursor-capable conjunct is closed. -/
theorem c1_noncursor_bound_witness :
    execNumRes (execute (fun _ => .error (.transportError 0))
      (mkElsSearch "cats" "inpharma") true false none 25 1) < 5000 + 25 ∧
    5000 < execNumRes (execute cursorDemoClient
      (mkElsSearch "cats" "scopus") true false none 25 5) := by
  exact c1_noncursor_bound (fun _ => .error (.transportError 0)) "cats"
    "inpharma" false none 25 1 25 (by decide)
    (by intro u r h es he; cases h)


end Elsapy
